import Mathlib

/-!
# WhoSaid backend — shallow embedding of `src/main.py`

The program is a FastAPI service whose only state lives in an external
tabular store with five tables: `sessions`, `players`, `confessions`,
`guesses`, `leaderboard`.  We embed that store as an explicit `Store`
value and each HTTP endpoint as a pure function `Store → request →
Store × response`.  Read queries against the store are modelled as the
corresponding list operations on the in-memory tables (the store is
assumed to answer reads successfully); write queries that the code
checks for failure take an explicit `InsertOutcome` argument so that the
failure branches of the endpoints stay visible.

Nondeterminism is passed in explicitly: `random.shuffle` becomes a
caller-supplied reordering function, the generated session id of
`create_session` becomes an argument, and the OpenAI call of
`generate_ai_confession` becomes an `Except`-valued oracle argument.
-/

namespace WhoSaid

/-- The sentinel author name under which AI confessions are stored
(the literal `"AI 🤖"` of `main.py`). -/
def aiSentinel : String := "AI 🤖"

/-- The whitespace characters recognised by the Python `str.strip()`
calls in `main.py` (ASCII: space, tab, newline, carriage return,
vertical tab, form feed). -/
def pyIsSpace (c : Char) : Bool :=
  c = ' ' || c = '\t' || c = '\n' || c = '\x0d' || c = '\x0b' || c = '\x0c'

/-- Python `s.strip()`: drop leading and trailing whitespace. -/
def pyStrip (s : String) : String :=
  String.mk (((s.toList.dropWhile pyIsSpace).reverse.dropWhile pyIsSpace).reverse)

/-- Python `not s.strip()`: the string is empty after stripping. -/
def pyStripEmpty (s : String) : Bool :=
  (pyStrip s).isEmpty

/-! ## Store rows and request bodies -/

/-- A row of the `sessions` table, as written by `create_session`
(`{"id": ..., "status": "waiting", "current_round": 1}`). -/
structure SessionRow where
  id : String
  status : String
  current_round : Int
deriving DecidableEq, Repr

/-- A row of the `players` table: the `Player` request body plus the
`is_ready` field defaulted to `False` in `join_game`. -/
structure PlayerRow where
  username : String
  session_id : String
  is_ready : Bool
deriving DecidableEq, Repr

/-- The `Player` pydantic request model of `/join`. -/
structure Player where
  username : String
  session_id : String
deriving DecidableEq, Repr

/-- The `Confession` pydantic model of `/confess`.  Its dict is posted
verbatim to the `confessions` table, so the same structure serves as the
stored row.  The `must_not_be_empty` validator is modelled separately in
`confessEndpoint` because `inject_ai_confession` bypasses it. -/
structure Confession where
  username : String
  session_id : String
  confession : String
deriving DecidableEq, Repr

/-- The `Guess` pydantic request model of `/guess`. -/
structure Guess where
  guesser : String
  session_id : String
  confession : String
  guessed_username : String
deriving DecidableEq, Repr

/-- A row of the `guesses` table: the request dict plus the derived
`correct` and `score` fields. -/
structure GuessRow where
  guesser : String
  session_id : String
  confession : String
  guessed_username : String
  correct : Bool
  score : Int
deriving DecidableEq, Repr

/-- A row of the `leaderboard` table (`ScoreInput` dict). -/
structure LeaderboardRow where
  username : String
  score : Int
  session_id : Option String
deriving DecidableEq, Repr

/-- The external tabular store: the five tables used by `main.py`. -/
structure Store where
  sessions : List SessionRow
  players : List PlayerRow
  confessions : List Confession
  guesses : List GuessRow
  leaderboard : List LeaderboardRow
deriving DecidableEq, Repr

/-- Outcome of a store write that the code checks with
`raise_for_status` or a status-code test: success, or an upstream
failure with its HTTP status and response body. -/
inductive InsertOutcome where
  | ok
  | fail (status : Nat) (body : String)
deriving DecidableEq, Repr

/-! ## `/join` — `join_game` -/

/-- Responses of `join_game`: the "already in session" message, the
success message, or the in-body error carrying the upstream status and
text. -/
inductive JoinResult where
  | alreadyInSession
  | joined
  | joinFailed (status : Nat) (details : String)
deriving DecidableEq, Repr

/-- `join_game` (`main.py` lines 87-118): read the `players` table
filtered by username and session, answer "Player already in session" if
nonempty, otherwise insert the player with `is_ready = False`. -/
def joinGame (db : Store) (player : Player) (ins : InsertOutcome) :
    Store × JoinResult :=
  if !(db.players.filter (fun p =>
      p.username == player.username && p.session_id == player.session_id)).isEmpty then
    (db, .alreadyInSession)
  else
    match ins with
    | .ok =>
        ({ db with players := db.players ++
            [{ username := player.username, session_id := player.session_id,
               is_ready := false }] }, .joined)
    | .fail st body => (db, .joinFailed st body)

/-! ## `/confess` — `submit_confession` -/

/-- Responses of the `/confess` endpoint.  `validationError` is the 422
produced by pydantic before the endpoint body runs; `sessionNotFound`
and `sessionNotActive` are the raised 404/403; `alreadyConfessed` is the
raised 409; `confessFailed` is the in-body error for a failed insert. -/
inductive ConfessResult where
  | validationError
  | sessionNotFound
  | sessionNotActive
  | alreadyConfessed
  | submitted
  | confessFailed (status : Nat) (details : String)
deriving DecidableEq, Repr

/-- `submit_confession` endpoint body (`main.py` lines 121-167): check
the session exists (404) and is active (403), check for an existing
confession by the same user in the session (409), then insert. -/
def submitConfession (db : Store) (c : Confession) (ins : InsertOutcome) :
    Store × ConfessResult :=
  match db.sessions.find? (fun s => s.id == c.session_id) with
  | none => (db, .sessionNotFound)
  | some row =>
    if row.status != "active" then (db, .sessionNotActive)
    else if !(db.confessions.filter (fun r =>
        r.username == c.username && r.session_id == c.session_id)).isEmpty then
      (db, .alreadyConfessed)
    else
      match ins with
      | .ok => ({ db with confessions := db.confessions ++ [c] }, .submitted)
      | .fail st body => (db, .confessFailed st body)

/-- The full `/confess` request path: the `must_not_be_empty` pydantic
validator (`main.py` lines 80-84) runs before the endpoint body, so an
empty-after-strip text is rejected with a validation error no matter
what the store holds. -/
def confessEndpoint (db : Store) (c : Confession) (ins : InsertOutcome) :
    Store × ConfessResult :=
  if pyStripEmpty c.confession then (db, .validationError)
  else submitConfession db c ins

/-! ## `GET /confessions/{session_id}` — `get_confessions` -/

/-- `get_confessions` (`main.py` lines 197-214): select the
`confession` column of the rows of the session, shuffle, return.  The
`random.shuffle` call is modelled by the caller-supplied `shuffle`
argument; the claims about this endpoint quantify over reorderings. -/
def getConfessions (db : Store) (sid : String)
    (shuffle : List String → List String) : Store × List String :=
  (db, shuffle ((db.confessions.filter (fun r => r.session_id == sid)).map
      (fun r => r.confession)))

/-! ## `/guess` — `make_guess`

`make_guess` (`main.py` lines 224-310) contains an indentation slip:
the scoring `if`/`elif`/`else` chain of lines 282-287 is dedented out of
the `async with httpx.AsyncClient() as client:` block, and the
save-and-respond block of lines 290-310 is indented at the level of the
`else:` suite (one column deeper than the `else:` itself), so it belongs
to the `else` branch only.  Consequences, which this embedding keeps:

* when the computed score is 5 or 2 (a correct guess) the function body
  ends after the assignment and the endpoint returns `None`
  (HTTP 200 with body `null`) without persisting anything;
* when the computed score is 0 the save block runs, but the `client`
  was closed when the `async with` block was left, so
  `client.post` raises `RuntimeError` (HTTP 500) and again nothing is
  persisted. -/

/-- `is_correct = actual_username == guess.guessed_username`
(`main.py` line 277). -/
def isCorrectFlag (actual guessed : String) : Bool :=
  actual == guessed

/-- The scoring conditional of `make_guess` (`main.py` lines 282-287):
5 when the true author is the AI sentinel and the guess names it, 2 for
any other correct guess, 0 otherwise. -/
def guessScore (actual guessed : String) : Int :=
  if actual == aiSentinel && guessed == aiSentinel then 5
  else if isCorrectFlag actual guessed then 2
  else 0

/-- Responses of `/guess`.  `sessionNotFound`/`sessionNotActive` are the
raised 404/403; `alreadyGuessed` and `confessionNotFound` are in-body
error objects; `noneResp` is the bare `None` the function returns when
it falls off the end (the correct-guess branches); `runtimeError` is the
RuntimeError raised by posting on the closed client (the
incorrect-guess branch). -/
inductive GuessResult where
  | sessionNotFound
  | sessionNotActive
  | alreadyGuessed
  | confessionNotFound
  | noneResp
  | runtimeError
deriving DecidableEq, Repr

/-- `make_guess` (`main.py` lines 224-310): session existence and
active checks, duplicate-guess check on (session, confession, guesser),
author lookup (`json()[0]["username"]` of the filtered `confessions`
read), then the mis-indented scoring/saving tail described above.  The
store is never modified: no branch completes a successful insert. -/
def makeGuess (db : Store) (g : Guess) : Store × GuessResult :=
  match db.sessions.find? (fun s => s.id == g.session_id) with
  | none => (db, .sessionNotFound)
  | some row =>
    if row.status != "active" then (db, .sessionNotActive)
    else if !(db.guesses.filter (fun r =>
        r.session_id == g.session_id && r.confession == g.confession &&
        r.guesser == g.guesser)).isEmpty then
      (db, .alreadyGuessed)
    else
      match (db.confessions.filter (fun r =>
          r.session_id == g.session_id && r.confession == g.confession)).head? with
      | none => (db, .confessionNotFound)
      | some crow =>
        -- actual_username = data[0]["username"]; the chain below mirrors
        -- lines 282-287; only the else branch contains lines 290-310.
        if crow.username == aiSentinel && g.guessed_username == aiSentinel then
          (db, .noneResp)        -- score = 5; nothing follows: returns None
        else if isCorrectFlag crow.username g.guessed_username then
          (db, .noneResp)        -- score = 2; nothing follows: returns None
        else
          (db, .runtimeError)    -- score = 0; save block posts on the closed client

/-! ## Session lifecycle endpoints -/

/-- Response of `create_session`: the fresh id, or the unhandled
`raise_for_status` exception. -/
inductive CreateResult where
  | created (session_id : String)
  | raisedError
deriving DecidableEq, Repr

/-- `create_session` (`main.py` lines 376-390): insert a new session
row with status `waiting` and round 1.  The generated uuid is passed in
as `newId`. -/
def createSession (db : Store) (newId : String) (ins : InsertOutcome) :
    Store × CreateResult :=
  match ins with
  | .ok =>
      ({ db with sessions := db.sessions ++
          [{ id := newId, status := "waiting", current_round := 1 }] },
       .created newId)
  | .fail _ _ => (db, .raisedError)

/-- `start_session` (`main.py` lines 392-401): PATCH
`sessions?id=eq.{sid}` with `{"status": "active"}` — unconditionally,
with no read of the current status. -/
def startSession (db : Store) (sid : String) : Store × String :=
  ({ db with sessions := db.sessions.map (fun s =>
      if s.id == sid then { s with status := "active" } else s) },
   "Session started")

/-- `end_session` (`main.py` lines 403-412): PATCH the session row to
`{"status": "ended"}`, unconditionally. -/
def endSession (db : Store) (sid : String) : Store × String :=
  ({ db with sessions := db.sessions.map (fun s =>
      if s.id == sid then { s with status := "ended" } else s) },
   "Session ended")

/-- Response of `next_round`: 404, or the advanced round number
(the message `f"Advanced to round {new_round}"`). -/
inductive RoundResult where
  | notFound
  | advanced (newRound : Int)
deriving DecidableEq, Repr

/-- `next_round` (`main.py` lines 428-451): read the session
(404 if absent), take `current_round` of the first returned row, PATCH
every row of that id to `current_round + 1`.  No status check. -/
def nextRound (db : Store) (sid : String) : Store × RoundResult :=
  match db.sessions.find? (fun s => s.id == sid) with
  | none => (db, .notFound)
  | some row =>
      ({ db with sessions := db.sessions.map (fun s =>
          if s.id == sid then { s with current_round := row.current_round + 1 }
          else s) },
       .advanced (row.current_round + 1))

/-! ## AI confession injection -/

/-- `generate_ai_confession` (`main.py` lines 457-468): call the
completion API (modelled as an `Except`-valued oracle) and strip the
returned content. -/
def generateAiConfession (apiResp : Except Unit String) : Except Unit String :=
  apiResp.map pyStrip

/-- Response of `inject_ai_confession`: an unhandled generator
exception, an unhandled `raise_for_status` on the insert, or success
carrying the injected text. -/
inductive InjectResult where
  | generatorError
  | storeError
  | added (text : String)
deriving DecidableEq, Repr

/-- `inject_ai_confession` (`main.py` lines 484-500): generate a text
and insert it under the sentinel author.  There is no session-existence
check, no status check and no empty-text validation on the path. -/
def injectAiConfession (db : Store) (sid : String)
    (apiResp : Except Unit String) (ins : InsertOutcome) :
    Store × InjectResult :=
  match generateAiConfession apiResp with
  | .error _ => (db, .generatorError)
  | .ok text =>
      match ins with
      | .ok =>
          ({ db with confessions := db.confessions ++
              [{ username := aiSentinel, session_id := sid, confession := text }] },
           .added text)
      | .fail _ _ => (db, .storeError)

/-! ## Remaining store-touching endpoints -/

/-- Response of `submit_score`: saved, or the raised 400. -/
inductive ScoreResult where
  | saved
  | notSaved
deriving DecidableEq, Repr

/-- `submit_score` (`main.py` lines 327-337): append one leaderboard
row; a non-201 insert raises a 400 and stores nothing. -/
def submitScore (db : Store) (username : String) (score : Int)
    (session_id : Option String) (ins : InsertOutcome) : Store × ScoreResult :=
  match ins with
  | .ok =>
      ({ db with leaderboard := db.leaderboard ++
          [{ username := username, score := score, session_id := session_id }] },
       .saved)
  | .fail _ _ => (db, .notSaved)

/-- `toggle_ready` (`main.py` lines 503-517): PATCH the `is_ready`
field of the matching player rows. -/
def toggleReady (db : Store) (username sid : String) (flag : Bool) :
    Store × String :=
  ({ db with players := db.players.map (fun p =>
      if p.username == username && p.session_id == sid then
        { p with is_ready := flag }
      else p) },
   "Player readiness updated")

/-! ## One step of the system

`Op` enumerates every HTTP endpoint of `main.py`.  The read-only
endpoints (`/players`, the two leaderboard reads, `/session-status`)
and `/generate-audio` (which writes an audio file, not the store) issue
no write query against the store, so their store effect is the
identity. -/

/-- One request to the service, with the nondeterministic inputs
(insert outcomes, generated id, generator oracle, shuffle) supplied
explicitly. -/
inductive Op where
  | generateAudio (text : String)
  | join (p : Player) (ins : InsertOutcome)
  | confess (c : Confession) (ins : InsertOutcome)
  | players (sid : Option String)
  | confessionsList (sid : String) (shuffle : List String → List String)
  | guess (g : Guess)
  | score (username : String) (points : Int) (sid : Option String) (ins : InsertOutcome)
  | leaderboardGlobal (limit : Int)
  | leaderboardSession (sid : String) (limit : Int)
  | create (newId : String) (ins : InsertOutcome)
  | start (sid : String)
  | endSess (sid : String)
  | sessionStatus (sid : String)
  | round (sid : String)
  | injectAi (sid : String) (apiResp : Except Unit String) (ins : InsertOutcome)
  | ready (username sid : String) (flag : Bool)

/-- The store after one request. -/
def opStore (op : Op) (db : Store) : Store :=
  match op with
  | .generateAudio _ => db
  | .join p ins => (joinGame db p ins).1
  | .confess c ins => (confessEndpoint db c ins).1
  | .players _ => db
  | .confessionsList sid shuffle => (getConfessions db sid shuffle).1
  | .guess g => (makeGuess db g).1
  | .score u pts sid ins => (submitScore db u pts sid ins).1
  | .leaderboardGlobal _ => db
  | .leaderboardSession _ _ => db
  | .create newId ins => (createSession db newId ins).1
  | .start sid => (startSession db sid).1
  | .endSess sid => (endSession db sid).1
  | .sessionStatus _ => db
  | .round sid => (nextRound db sid).1
  | .injectAi sid apiResp ins => (injectAiConfession db sid apiResp ins).1
  | .ready u sid b => (toggleReady db u sid b).1

/-- Position of a status string along the documented lifecycle
`waiting → active → ended` (unknown strings rank lowest). -/
def statusRank (s : String) : Nat :=
  if s = "ended" then 2 else if s = "active" then 1 else 0

/-! ## Uniqueness invariant for players and confessions -/

/-- Number of `players` rows of a given (username, session) pair. -/
def pairPlayers (db : Store) (u s : String) : Nat :=
  db.players.countP (fun p => p.username == u && p.session_id == s)

/-- Number of `confessions` rows of a given (username, session) pair. -/
def pairConfessions (db : Store) (u s : String) : Nat :=
  db.confessions.countP (fun r => r.username == u && r.session_id == s)

/-- At most one player row and one confession row per
(username, session) pair. -/
def uniquePairs (db : Store) : Prop :=
  ∀ u s, pairPlayers db u s ≤ 1 ∧ pairConfessions db u s ≤ 1

/-- A join or confess request, for sequences of sequential calls. -/
inductive JCOp where
  | join (p : Player) (ins : InsertOutcome)
  | confess (c : Confession) (ins : InsertOutcome)

/-- Run a sequence of join/confess requests left to right. -/
def runJC (db : Store) (ops : List JCOp) : Store :=
  ops.foldl (fun d op =>
    match op with
    | .join p ins => (joinGame d p ins).1
    | .confess c ins => (confessEndpoint d c ins).1) db

/-! ## Sample stores for witnesses and counterexamples -/

/-- The empty store. -/
def emptyDb : Store :=
  { sessions := [], players := [], confessions := [], guesses := [],
    leaderboard := [] }

/-- A store whose only session has already ended. -/
def endedDb : Store :=
  { sessions := [{ id := "s", status := "ended", current_round := 3 }],
    players := [], confessions := [], guesses := [], leaderboard := [] }

/-- A store whose only session is still waiting. -/
def waitingDb : Store :=
  { sessions := [{ id := "s", status := "waiting", current_round := 1 }],
    players := [], confessions := [], guesses := [], leaderboard := [] }

/-- An active session holding one confession by alice. -/
def activeDb : Store :=
  { sessions := [{ id := "s1", status := "active", current_round := 1 }],
    players := [],
    confessions := [{ username := "alice", session_id := "s1",
                      confession := "hi" }],
    guesses := [], leaderboard := [] }

/-- An active session `s1` with two confessions, plus a confession in a
different session `s2`. -/
def listDb : Store :=
  { sessions := [{ id := "s1", status := "active", current_round := 1 }],
    players := [],
    confessions := [{ username := "alice", session_id := "s1",
                      confession := "hi" },
                    { username := "bob", session_id := "s1",
                      confession := "yo" },
                    { username := "carol", session_id := "s2",
                      confession := "nope" }],
    guesses := [], leaderboard := [] }

/-- An active session in which bob has already guessed the confession
`"hi"`. -/
def dupGuessDb : Store :=
  { sessions := [{ id := "s1", status := "active", current_round := 1 }],
    players := [],
    confessions := [{ username := "alice", session_id := "s1",
                      confession := "hi" }],
    guesses := [{ guesser := "bob", session_id := "s1", confession := "hi",
                  guessed_username := "alice", correct := true, score := 2 }],
    leaderboard := [] }

/-! ## Helper lemmas -/

/-- `join_game` touches only the `players` table. -/
lemma joinGame_sessions (db : Store) (p : Player) (ins : InsertOutcome) :
    ((joinGame db p ins).1).sessions = db.sessions := by
  unfold joinGame
  split
  · rfl
  · cases ins <;> rfl

/-- `submit_confession` touches only the `confessions` table. -/
lemma submitConfession_sessions (db : Store) (c : Confession)
    (ins : InsertOutcome) :
    ((submitConfession db c ins).1).sessions = db.sessions := by
  unfold submitConfession
  split
  · rfl
  · split
    · rfl
    · split
      · rfl
      · split <;> rfl

/-- The `/confess` path touches only the `confessions` table. -/
lemma confessEndpoint_sessions (db : Store) (c : Confession)
    (ins : InsertOutcome) :
    ((confessEndpoint db c ins).1).sessions = db.sessions := by
  unfold confessEndpoint
  split
  · rfl
  · exact submitConfession_sessions db c ins

/-- `make_guess` never writes to the store: every branch returns the
incoming store (the successful-save path is unreachable because of the
indentation slip). -/
lemma makeGuess_fst (db : Store) (g : Guess) : (makeGuess db g).1 = db := by
  unfold makeGuess
  repeat' split
  all_goals rfl

/-- `submit_score` touches only the `leaderboard` table. -/
lemma submitScore_sessions (db : Store) (u : String) (pts : Int)
    (sid : Option String) (ins : InsertOutcome) :
    ((submitScore db u pts sid ins).1).sessions = db.sessions := by
  cases ins <;> rfl

/-- `inject_ai_confession` touches only the `confessions` table. -/
lemma injectAi_sessions (db : Store) (sid : String)
    (apiResp : Except Unit String) (ins : InsertOutcome) :
    ((injectAiConfession db sid apiResp ins).1).sessions = db.sessions := by
  unfold injectAiConfession
  split
  · rfl
  · split <;> rfl

/-- `toggle_ready` touches only the `players` table. -/
lemma toggleReady_sessions (db : Store) (u sid : String) (flag : Bool) :
    ((toggleReady db u sid flag).1).sessions = db.sessions := rfl

/-- The lifecycle rank never exceeds the rank of `"ended"`. -/
lemma statusRank_le_two (s : String) : statusRank s ≤ 2 := by
  unfold statusRank
  split
  · exact Nat.le_refl 2
  · split
    · exact Nat.le_succ 1
    · exact Nat.zero_le 2

/-! ## Claims -/

/-- Claim C1: for every guess that reaches the scoring step, the
computed score is 5 iff the true author is the AI sentinel and the
guess names the AI sentinel, 2 iff the guess equals the true author
and the author is not the AI sentinel, and 0 otherwise; and the derived
correct flag always equals (guessed_username == true author),
independent of the bonus. -/
theorem guess_scoring_table (actual guessed : String) :
    (guessScore actual guessed = 5 ↔ (actual = aiSentinel ∧ guessed = aiSentinel))
  ∧ (guessScore actual guessed = 2 ↔ (guessed = actual ∧ actual ≠ aiSentinel))
  ∧ (guessScore actual guessed = 0 ↔ guessed ≠ actual)
  ∧ (isCorrectFlag actual guessed = true ↔ guessed = actual) := by
  unfold guessScore isCorrectFlag
  by_cases h1 : actual = aiSentinel
  · by_cases h2 : guessed = aiSentinel
    · subst h1; subst h2
      simp
    · have hne : aiSentinel ≠ guessed := fun h => h2 h.symm
      have hb : (guessed == aiSentinel) = false := beq_eq_false_iff_ne.mpr h2
      have hb2 : (aiSentinel == guessed) = false := beq_eq_false_iff_ne.mpr hne
      simp [h1, hb, hb2, h2, hne]
  · by_cases h3 : actual = guessed
    · subst h3
      have hb : (actual == aiSentinel) = false := beq_eq_false_iff_ne.mpr h1
      simp [hb, h1]
    · have hne : guessed ≠ actual := fun h => h3 h.symm
      have hb : (actual == aiSentinel) = false := beq_eq_false_iff_ne.mpr h1
      have hb2 : (actual == guessed) = false := beq_eq_false_iff_ne.mpr h3
      simp [hb, hb2, h1, hne]

/-- Claim C2 evaluation: for a guess that passes all checks, the
endpoint does not persist anything and does not answer
"Guess recorded".  In `activeDb` the session is active, no prior guess
exists and the author of `"hi"` is alice; yet guessing "alice"
(correct) yields a `None` response with the store unchanged, and
guessing "carol" (incorrect) raises a RuntimeError on the closed
client, again with the store unchanged. -/
theorem makeGuess_bug_eval :
    makeGuess activeDb
      { guesser := "bob", session_id := "s1",
        confession := "hi", guessed_username := "alice" }
      = (activeDb, GuessResult.noneResp)
  ∧ makeGuess activeDb
      { guesser := "bob", session_id := "s1",
        confession := "hi", guessed_username := "carol" }
      = (activeDb, GuessResult.runtimeError) := by
  constructor <;> rfl

/-- Claim C8: a confession whose text is empty after stripping
whitespace is rejected by the pydantic validator with a validation
error and no row is written, regardless of the session state. -/
theorem empty_confession_rejected (db : Store) (c : Confession)
    (ins : InsertOutcome) (h : pyStripEmpty c.confession = true) :
    confessEndpoint db c ins = (db, ConfessResult.validationError) := by
  unfold confessEndpoint
  simp [h]

/-- Claim C8 witness: a whitespace-only confession is rejected even in
an active session with no prior confession by that user. -/
theorem empty_confession_rejected_witness :
    confessEndpoint activeDb
        { username := "bob", session_id := "s1", confession := " \t " }
        InsertOutcome.ok
      = (activeDb, ConfessResult.validationError) :=
  empty_confession_rejected activeDb
    { username := "bob", session_id := "s1", confession := " \t " }
    InsertOutcome.ok (by decide)

/-- Claim C9: `next_round` reads the current round of an existing
session and writes exactly that round plus one, with no status check
(the status field of every row is untouched by the update map); on a
missing session it answers 404 and writes nothing. -/
theorem nextRound_spec (db : Store) (sid : String) :
    (db.sessions.find? (fun s => s.id == sid) = none →
      nextRound db sid = (db, RoundResult.notFound))
  ∧ (∀ row, db.sessions.find? (fun s => s.id == sid) = some row →
      nextRound db sid =
        ({ db with sessions := db.sessions.map (fun s =>
            if s.id == sid then { s with current_round := row.current_round + 1 }
            else s) },
         RoundResult.advanced (row.current_round + 1))) := by
  constructor
  · intro h
    unfold nextRound
    rw [h]
  · intro row h
    unfold nextRound
    rw [h]

/-- Claim C9 witness: advancing the round of an ended session
increments its round from 3 to 4 (no status check), leaving the status
ended. -/
theorem nextRound_spec_witness :
    nextRound endedDb "s" =
      ({ endedDb with
          sessions := [{ id := "s", status := "ended", current_round := 4 }] },
       RoundResult.advanced 4) :=
  (nextRound_spec endedDb "s").2
    { id := "s", status := "ended", current_round := 3 } rfl

/-- Claim C10: `inject_ai_confession` inserts a confession under the
sentinel author for any session id whatsoever — no session-existence
check, no status check, no empty-text validation on the generated
text — and fails only when the generator call or the store insert
fails. -/
theorem injectAi_unchecked (db : Store) (sid raw : String) (st : Nat)
    (body : String) :
    injectAiConfession db sid (Except.ok raw) InsertOutcome.ok =
      ({ db with confessions := db.confessions ++
          [{ username := aiSentinel, session_id := sid,
             confession := pyStrip raw }] },
       InjectResult.added (pyStrip raw))
  ∧ injectAiConfession db sid (Except.error ()) InsertOutcome.ok =
      (db, InjectResult.generatorError)
  ∧ injectAiConfession db sid (Except.error ()) (InsertOutcome.fail st body) =
      (db, InjectResult.generatorError)
  ∧ injectAiConfession db sid (Except.ok raw) (InsertOutcome.fail st body) =
      (db, InjectResult.storeError) :=
  ⟨rfl, rfl, rfl, rfl⟩

/-- Claim C4: for both confession submissions and guesses, a missing
session yields the raised 404 and a session whose status is not
`"active"` yields the raised 403, and in either case the store is
left unchanged. -/
theorem inactive_session_rejection (db : Store) (c : Confession)
    (ins : InsertOutcome) (g : Guess) :
    (db.sessions.find? (fun s => s.id == c.session_id) = none →
      submitConfession db c ins = (db, ConfessResult.sessionNotFound))
  ∧ (∀ row, db.sessions.find? (fun s => s.id == c.session_id) = some row →
      row.status ≠ "active" →
      submitConfession db c ins = (db, ConfessResult.sessionNotActive))
  ∧ (db.sessions.find? (fun s => s.id == g.session_id) = none →
      makeGuess db g = (db, GuessResult.sessionNotFound))
  ∧ (∀ row, db.sessions.find? (fun s => s.id == g.session_id) = some row →
      row.status ≠ "active" →
      makeGuess db g = (db, GuessResult.sessionNotActive)) := by
  refine ⟨?_, ?_, ?_, ?_⟩
  · intro h
    unfold submitConfession
    rw [h]
  · intro row h hne
    unfold submitConfession
    rw [h]
    simp [bne_iff_ne.mpr hne]
  · intro h
    unfold makeGuess
    rw [h]
  · intro row h hne
    unfold makeGuess
    rw [h]
    simp [bne_iff_ne.mpr hne]

/-- Claim C4 witness: confessing into a store with no sessions is a
404, and guessing in a waiting session is a 403, both without any
write. -/
theorem inactive_session_rejection_witness :
    submitConfession emptyDb
        { username := "alice", session_id := "s", confession := "hi" }
        InsertOutcome.ok
      = (emptyDb, ConfessResult.sessionNotFound)
  ∧ makeGuess waitingDb
      { guesser := "bob", session_id := "s", confession := "hi",
        guessed_username := "alice" }
      = (waitingDb, GuessResult.sessionNotActive) :=
  ⟨(inactive_session_rejection emptyDb
      { username := "alice", session_id := "s", confession := "hi" }
      InsertOutcome.ok
      { guesser := "bob", session_id := "s", confession := "hi",
        guessed_username := "alice" }).1 rfl,
   (inactive_session_rejection waitingDb
      { username := "alice", session_id := "s", confession := "hi" }
      InsertOutcome.ok
      { guesser := "bob", session_id := "s", confession := "hi",
        guessed_username := "alice" }).2.2.2
     { id := "s", status := "waiting", current_round := 1 }
     rfl (by decide)⟩

/-- Claim C6: when a guess row already exists for the same
(guesser, session, confession) triple (and the request reaches the
duplicate check, i.e. the session is active), the guess call reports
"already guessed" and leaves the whole store unchanged — no new row,
no score change. -/
theorem duplicate_guess_noop (db : Store) (g : Guess) (row : SessionRow)
    (hs : db.sessions.find? (fun s => s.id == g.session_id) = some row)
    (hactive : row.status = "active")
    (hdup : (db.guesses.filter (fun r =>
        r.session_id == g.session_id && r.confession == g.confession &&
        r.guesser == g.guesser)).isEmpty = false) :
    makeGuess db g = (db, GuessResult.alreadyGuessed) := by
  unfold makeGuess
  rw [hs]
  simp [hactive, hdup]

/-- Claim C6 witness: bob guessing the same confession twice in an
active session gets the "already guessed" answer and the store is
untouched. -/
theorem duplicate_guess_noop_witness :
    makeGuess dupGuessDb
      { guesser := "bob", session_id := "s1", confession := "hi",
        guessed_username := "carol" }
      = (dupGuessDb, GuessResult.alreadyGuessed) :=
  duplicate_guess_noop dupGuessDb
    { guesser := "bob", session_id := "s1", confession := "hi",
      guessed_username := "carol" }
    { id := "s1", status := "active", current_round := 1 }
    rfl rfl (by decide)

/-- Claim C5: the confession listing returns exactly the multiset of
confession texts stored for the session — any two calls are
permutations of each other and of the stored column — and the response
is built from the `confession` field alone (the right-hand side of the
first permutation), never exposing authors.  The listing writes
nothing. -/
theorem confession_listing_perm (db : Store) (sid : String)
    (shuffle1 shuffle2 : List String → List String)
    (h1 : ∀ l : List String, List.Perm (shuffle1 l) l)
    (h2 : ∀ l : List String, List.Perm (shuffle2 l) l) :
    List.Perm (getConfessions db sid shuffle1).2
      ((db.confessions.filter (fun r => r.session_id == sid)).map
        (fun r => r.confession))
  ∧ List.Perm (getConfessions db sid shuffle1).2
      (getConfessions db sid shuffle2).2
  ∧ (getConfessions db sid shuffle1).1 = db := by
  refine ⟨h1 _, ?_, rfl⟩
  exact (h1 _).trans ((h2 _).symm)

/-- Claim C5 witness: with the identity and the reversing reordering,
both listings of session `s1` in `listDb` are permutations of
`["hi", "yo"]` (the confession of the other session is filtered
out, and no authors appear). -/
theorem confession_listing_perm_witness :
    List.Perm (getConfessions listDb "s1" id).2 ["hi", "yo"]
  ∧ List.Perm (getConfessions listDb "s1" id).2
      (getConfessions listDb "s1" List.reverse).2
  ∧ (getConfessions listDb "s1" id).1 = listDb :=
  confession_listing_perm listDb "s1" id List.reverse
    (fun l => List.Perm.refl l) (fun l => List.reverse_perm l)

/-! ### Counting helpers for the uniqueness invariant -/

/-- Appending one element adds its indicator to a `countP`. -/
lemma countP_append_single {α : Type} (l : List α) (x : α) (pred : α → Bool) :
    (l ++ [x]).countP pred = l.countP pred + (if pred x then 1 else 0) := by
  simp [List.countP_append, List.countP_cons]

/-- An empty filter means a zero count. -/
lemma countP_of_filter_isEmpty {α : Type} (l : List α) (pred : α → Bool)
    (h : (l.filter pred).isEmpty = true) : l.countP pred = 0 := by
  rw [List.countP_eq_length_filter]
  rw [List.isEmpty_iff] at h
  simp [h]

/-- `join_game` preserves the at-most-one-row-per-pair invariant: it
inserts only after reading an empty filter for the pair. -/
lemma joinGame_uniquePairs (db : Store) (p : Player) (ins : InsertOutcome)
    (h : uniquePairs db) : uniquePairs (joinGame db p ins).1 := by
  unfold joinGame
  split
  · exact h
  · rename_i hcond
    cases ins with
    | fail st body => exact h
    | ok =>
        intro u s
        have hEmpty : (db.players.filter (fun q =>
            q.username == p.username &&
            q.session_id == p.session_id)).isEmpty = true := by
          simpa using hcond
        have hle : List.countP
            (fun q => q.username == u && q.session_id == s) db.players ≤ 1 :=
          (h u s).1
        refine ⟨?_, (h u s).2⟩
        unfold pairPlayers
        dsimp only
        rw [countP_append_single]
        dsimp only
        by_cases hx : (p.username == u && p.session_id == s) = true
        · rw [Bool.and_eq_true] at hx
          obtain ⟨hu, hs⟩ := hx
          have hu' : p.username = u := beq_iff_eq.mp hu
          have hs' : p.session_id = s := beq_iff_eq.mp hs
          subst hu'; subst hs'
          rw [countP_of_filter_isEmpty _ _ hEmpty]
          simp
        · rw [Bool.not_eq_true] at hx
          simp only [hx]
          simpa using hle

/-- The `/confess` path preserves the at-most-one-row-per-pair
invariant. -/
lemma confessEndpoint_uniquePairs (db : Store) (c : Confession)
    (ins : InsertOutcome) (h : uniquePairs db) :
    uniquePairs (confessEndpoint db c ins).1 := by
  unfold confessEndpoint
  split
  · exact h
  · unfold submitConfession
    split
    · exact h
    · split
      · exact h
      · split
        · exact h
        · rename_i hcond
          cases ins with
          | fail st body => exact h
          | ok =>
              intro u s
              have hEmpty : (db.confessions.filter (fun r =>
                  r.username == c.username &&
                  r.session_id == c.session_id)).isEmpty = true := by
                simpa using hcond
              have hle : List.countP
                  (fun r => r.username == u && r.session_id == s)
                  db.confessions ≤ 1 :=
                (h u s).2
              refine ⟨(h u s).1, ?_⟩
              unfold pairConfessions
              dsimp only
              rw [countP_append_single]
              try dsimp only
              by_cases hx : (c.username == u && c.session_id == s) = true
              · rw [Bool.and_eq_true] at hx
                obtain ⟨hu, hs⟩ := hx
                have hu' : c.username = u := beq_iff_eq.mp hu
                have hs' : c.session_id = s := beq_iff_eq.mp hs
                subst hu'; subst hs'
                rw [countP_of_filter_isEmpty _ _ hEmpty]
                simp
              · rw [Bool.not_eq_true] at hx
                simp only [hx]
                simpa using hle

/-- Any sequence of sequential join/confess calls preserves the
invariant. -/
lemma runJC_uniquePairs (ops : List JCOp) :
    ∀ db : Store, uniquePairs db → uniquePairs (runJC db ops) := by
  induction ops with
  | nil => intro db h; exact h
  | cons op rest ih =>
      intro db h
      cases op with
      | join p ins => exact ih _ (joinGame_uniquePairs db p ins h)
      | confess c ins => exact ih _ (confessEndpoint_uniquePairs db c ins h)

/-- Claim C7: from a store with at most one player row and one
confession row per (username, session) pair, any sequence of sequential
join and confess calls keeps it that way; a join for an existing pair
answers "already in session" without writing, and a confess reaching
the duplicate check with an existing confession for the pair is
rejected with the 409 conflict without writing. -/
theorem join_confess_uniqueness (db : Store) (ops : List JCOp) (p : Player)
    (c : Confession) (ins : InsertOutcome) (h : uniquePairs db) :
    uniquePairs (runJC db ops)
  ∧ ((db.players.filter (fun q =>
      q.username == p.username && q.session_id == p.session_id)).isEmpty = false →
      joinGame db p ins = (db, JoinResult.alreadyInSession))
  ∧ (∀ row, db.sessions.find? (fun s => s.id == c.session_id) = some row →
      row.status = "active" → pyStripEmpty c.confession = false →
      (db.confessions.filter (fun r =>
        r.username == c.username && r.session_id == c.session_id)).isEmpty = false →
      confessEndpoint db c ins = (db, ConfessResult.alreadyConfessed)) := by
  refine ⟨runJC_uniquePairs ops db h, ?_, ?_⟩
  · intro hne
    unfold joinGame
    simp [hne]
  · intro row hs hact hval hdup
    unfold confessEndpoint submitConfession
    rw [hval]
    simp only [if_false, Bool.false_eq_true]
    rw [hs]
    simp [hact, hdup]

/-- Claim C7 witness: starting from the empty store (which trivially
satisfies the invariant), a double join of alice followed by her
confession and a duplicate confession attempt still leaves at most one
row per pair. -/
theorem join_confess_uniqueness_witness :
    uniquePairs (runJC emptyDb
      [JCOp.join { username := "alice", session_id := "s1" } InsertOutcome.ok,
       JCOp.join { username := "alice", session_id := "s1" } InsertOutcome.ok]) :=
  (join_confess_uniqueness emptyDb
    [JCOp.join { username := "alice", session_id := "s1" } InsertOutcome.ok,
     JCOp.join { username := "alice", session_id := "s1" } InsertOutcome.ok]
    { username := "alice", session_id := "s1" }
    { username := "alice", session_id := "s1", confession := "hi" }
    InsertOutcome.ok
    (fun _ _ => ⟨Nat.zero_le 1, Nat.zero_le 1⟩)).1

/-- The lifecycle rank of `"ended"` bounds every rank. -/
lemma statusRank_le_ended (s : String) : statusRank s ≤ statusRank "ended" := by
  have h2 : statusRank "ended" = 2 := by decide
  rw [h2]
  exact statusRank_le_two s

/-- Claim C3 counterexample: `start_session` on an ended session patches
its status back to `"active"` — a backward move along
waiting→active→ended — and `end_session` on a waiting session jumps it
straight to `"ended"`, skipping `"active"`. -/
theorem startSession_on_ended_reactivates :
    (startSession endedDb "s").1.sessions =
      [{ id := "s", status := "active", current_round := 3 }]
  ∧ statusRank "active" < statusRank "ended"
  ∧ (endSession waitingDb "s").1.sessions =
      [{ id := "s", status := "ended", current_round := 1 }] :=
  ⟨rfl, by decide, rfl⟩

/-- Claim C3 amended: every endpoint other than `start-session` moves
each stored session monotonically along waiting→active→ended (with
`end-session` allowed to jump from waiting straight to ended), while
`start-session` unconditionally sets the status of the addressed
session to `"active"` — including on an ended session, which it moves
backwards. -/
theorem session_status_evolution (op : Op) (db : Store) (i : Nat)
    (hi : i < db.sessions.length) (hi' : i < (opStore op db).sessions.length) :
    ((∀ sid, op ≠ Op.start sid) →
      statusRank (db.sessions[i].status) ≤
        statusRank ((opStore op db).sessions[i].status))
  ∧ (∀ sid, op = Op.start sid →
      ((opStore op db).sessions[i]).status =
        (if db.sessions[i].id == sid then "active" else db.sessions[i].status)) := by
  constructor
  · intro hns
    cases op with
    | generateAudio t => exact Nat.le_refl _
    | join p ins =>
        have hsess := joinGame_sessions db p ins
        simp only [opStore, hsess]
        exact Nat.le_refl _
    | confess c ins =>
        have hsess := confessEndpoint_sessions db c ins
        simp only [opStore, hsess]
        exact Nat.le_refl _
    | players sid => exact Nat.le_refl _
    | confessionsList sid shuffle => exact Nat.le_refl _
    | guess g =>
        have hdb := makeGuess_fst db g
        simp only [opStore, hdb]
        exact Nat.le_refl _
    | score u pts sid ins => cases ins <;> exact Nat.le_refl _
    | leaderboardGlobal limit => exact Nat.le_refl _
    | leaderboardSession sid limit => exact Nat.le_refl _
    | create newId ins =>
        cases ins with
        | fail st body => exact Nat.le_refl _
        | ok =>
            simp only [opStore, createSession]
            rw [List.getElem_append_left]
    | start sid => exact absurd rfl (hns sid)
    | endSess sid =>
        simp only [opStore, endSession, List.getElem_map]
        split
        · exact statusRank_le_ended _
        · exact Nat.le_refl _
    | sessionStatus sid => exact Nat.le_refl _
    | round sid =>
        rcases hf : db.sessions.find? (fun s => s.id == sid) with _ | row
        · simp only [opStore, nextRound, hf]
          exact Nat.le_refl _
        · simp only [opStore, nextRound, hf, List.getElem_map]
          split
          · exact Nat.le_refl _
          · exact Nat.le_refl _
    | injectAi sid apiResp ins =>
        have hsess := injectAi_sessions db sid apiResp ins
        simp only [opStore, hsess]
        exact Nat.le_refl _
    | ready u sid b => exact Nat.le_refl _
  · intro sid hop
    subst hop
    simp only [opStore, startSession, List.getElem_map]
    by_cases hcond : (db.sessions[i].id == sid) = true
    · simp [hcond]
    · rw [Bool.not_eq_true] at hcond
      simp [hcond]

/-- Claim C3 amended witness: ending the (already ended) session of
`endedDb` does not lower its lifecycle rank. -/
theorem session_status_evolution_witness :
    statusRank ((endedDb.sessions.get ⟨0, Nat.zero_lt_one⟩).status) ≤
      statusRank
        (((opStore (Op.endSess "s") endedDb).sessions.get
          ⟨0, Nat.zero_lt_one⟩).status) :=
  (session_status_evolution (Op.endSess "s") endedDb 0 Nat.zero_lt_one
    Nat.zero_lt_one).1 (fun _ h => Op.noConfusion h)

end WhoSaid
